import Mathlib

/-!
Verification of the satellite / container managers of the `rce` repository.

The Python sources embedded here are
`framework/Administration/src/SatelliteUtil/Manager.py` (class `SatelliteManager`)
and `framework/Administration/src/ContainerUtil/Manager.py` (class `ContainerManager`).
Stateful methods become explicit state-passing functions; Python exceptions become
an explicit error type; the filesystem and the outbound messages/processes become
explicit components of the result.
-/

namespace Rce

/-- The Python exception classes that appear in the embedded code paths:
`InvalidRequest` and `InternalError` from `Exceptions`, plus the builtin
`ValueError`, `IndexError` and `TypeError`. -/
inductive PyError where
  | invalidRequest (msg : String)
  | internalError (msg : String)
  | valueError (msg : String)
  | indexError (msg : String)
  | typeError (msg : String)
deriving DecidableEq, Repr

/-- In-memory container object as used by `SatelliteManager`.  The class
`_Container.Container` itself is not under `src/`; its fields follow the spec
(§3 ContainerRecord): `address` (here `commID`), `ownerRobot`, `homeDir`,
`connected` (default false), `nodes`. -/
structure Container where
  commID : String
  homeDir : String
  owner : String
  connected : Bool := false
  nodes : List String := []
deriving DecidableEq, Repr

/-- Mutable state of `SatelliteManager`: the dict `self._containers` keyed by
commID (modelled as an association list with unique keys) and the list
`self._pendingCommIDReq` of pending Deferreds (modelled by slot identifiers,
allocated by the counter `nextSlot`). -/
structure SatState where
  containers : List (String × Container)
  pendingCommIDReq : List Nat
  nextSlot : Nat
deriving DecidableEq, Repr

/-- `SatelliteManager._getNewCommID`: appends a fresh Deferred to
`self._pendingCommIDReq`, sends an `ID_REQUEST` message to the master and
returns the Deferred.  The returned `Nat` is the slot identifier of the new
Deferred; the returned `Bool` records that one `ID_REQUEST` was sent. -/
def getNewCommID (s : SatState) : SatState × Nat × Bool :=
  ({ s with pendingCommIDReq := s.pendingCommIDReq ++ [s.nextSlot],
            nextSlot := s.nextSlot + 1 },
   s.nextSlot, true)

/-- `SatelliteManager.setNewCommID`: executes
`self._pendingCommIDReq.pop().callback(commID)`.  Python `list.pop()` with no
argument removes and returns the LAST element and raises `IndexError` on an
empty list.  The result carries the new state together with the completion
event `(slot, commID)` of the popped Deferred. -/
def setNewCommID (s : SatState) (commID : String) :
    Except PyError (SatState × Nat × String) :=
  match s.pendingCommIDReq.getLast? with
  | none => .error (.indexError "pop from empty list")
  | some d =>
      .ok ({ s with pendingCommIDReq := s.pendingCommIDReq.dropLast }, d, commID)

/-- The empty manager state. -/
def initSatState : SatState := { containers := [], pendingCommIDReq := [], nextSlot := 0 }

/-! ### C1: order of resolution of pending CommID requests -/

/-- C1 (counterexample): two `_getNewCommID` calls enqueue slots 0 and 1 in
that order; the first `ID_RESPONSE` (address "X1") delivered via
`setNewCommID` completes slot 1 — the SECOND (youngest) pending request — not
slot 0, so the claimed strict-FIFO resolution (the i-th request gets the i-th
response) is false. -/
theorem setNewCommID_not_fifo :
    (getNewCommID initSatState).2.1 = 0 ∧
    (getNewCommID (getNewCommID initSatState).1).2.1 = 1 ∧
    setNewCommID (getNewCommID (getNewCommID initSatState).1).1 "X1" =
      .ok ({ containers := [], pendingCommIDReq := [0], nextSlot := 2 }, 1, "X1") := by
  exact ⟨rfl, rfl, rfl⟩

/-- C1 (amended): resolution is LIFO, not FIFO.  Whenever the pending queue is
non-empty, `setNewCommID` completes the MOST RECENTLY enqueued pending slot
with the delivered address and removes exactly that slot. -/
theorem setNewCommID_lifo (s : SatState) (l : List Nat) (x : Nat) (c : String)
    (h : s.pendingCommIDReq = l ++ [x]) :
    setNewCommID s c = .ok ({ s with pendingCommIDReq := l }, x, c) := by
  unfold setNewCommID
  rw [h, List.getLast?_concat, List.dropLast_concat]

/-- Witness for `setNewCommID_lifo` at a concrete two-element queue. -/
theorem setNewCommID_lifo_witness :
    setNewCommID { containers := [], pendingCommIDReq := [0, 1], nextSlot := 2 } "X1" =
      .ok ({ containers := [], pendingCommIDReq := [0], nextSlot := 2 }, 1, "X1") :=
  setNewCommID_lifo _ [0] 1 "X1" rfl

/-! ### C10: `setNewCommID` precondition and empty-queue behaviour -/

/-- C10: when at least one request is pending, `setNewCommID` removes exactly
one pending entry (the popped one) and completes it with the given address;
when the queue is empty it raises an unhandled `IndexError` (Python
`pop from empty list`) instead of being ignored. -/
theorem setNewCommID_pop_spec (s : SatState) (c : String) :
    (s.pendingCommIDReq = [] →
        setNewCommID s c = .error (.indexError "pop from empty list")) ∧
    (s.pendingCommIDReq ≠ [] →
        ∃ d, s.pendingCommIDReq = s.pendingCommIDReq.dropLast ++ [d] ∧
          setNewCommID s c =
            .ok ({ s with pendingCommIDReq := s.pendingCommIDReq.dropLast }, d, c)) := by
  constructor
  · intro h
    unfold setNewCommID
    rw [h]
    rfl
  · intro h
    refine ⟨s.pendingCommIDReq.getLast h, (List.dropLast_append_getLast h).symm, ?_⟩
    unfold setNewCommID
    rw [List.getLast?_eq_getLast _ h]

/-- Witness for `setNewCommID_pop_spec`: the empty-queue branch at the initial
state and the non-empty branch at a singleton queue. -/
theorem setNewCommID_pop_spec_witness :
    setNewCommID initSatState "A" = .error (.indexError "pop from empty list") ∧
    ∃ d, ([7] : List Nat) = [7].dropLast ++ [d] ∧
      setNewCommID { containers := [], pendingCommIDReq := [7], nextSlot := 8 } "A" =
        .ok ({ containers := [], pendingCommIDReq := ([7] : List Nat).dropLast, nextSlot := 8 }, d, "A") :=
  ⟨(setNewCommID_pop_spec initSatState "A").1 rfl,
   (setNewCommID_pop_spec { containers := [], pendingCommIDReq := [7], nextSlot := 8 } "A").2
     (by decide)⟩

/-! ### Container operations of `SatelliteManager` -/

/-- `Container.checkOwner`.  The class `_Container.Container` is not under
`src/`.  Modelled from the spec: `checkOwner(robotID)` returns true only if
`robotID == ownerRobot` (§4.3). -/
def Container.checkOwner (c : Container) (robotID : String) : Bool :=
  robotID == c.owner

/-- `SatelliteManager._getContainer`: look up the container in
`self._containers`; raise `InvalidRequest` if absent or if the owner check
fails; otherwise return the container. -/
def getContainer (s : SatState) (robotID containerID : String) :
    Except PyError Container :=
  match s.containers.lookup containerID with
  | none => .error (.invalidRequest "ContainerID does not match any container.")
  | some container =>
      if !(container.checkOwner robotID) then
        .error (.invalidRequest "Robot is not the owner of the container.")
      else
        .ok container

/-- `SatelliteManager.destroyContainer`: `_getContainer` (which may raise,
leaving the state untouched), then `container.stop(self._commMngr)` and
`del self._containers[containerID]`.  The last component lists the commIDs
for which a stop was issued. -/
def destroyContainer (s : SatState) (robotID containerID : String) :
    Option PyError × SatState × List String :=
  match getContainer s robotID containerID with
  | .error e => (some e, s, [])
  | .ok _container =>
      (none,
       { s with containers := s.containers.filter (fun p => p.1 != containerID) },
       [containerID])

/-- `SatelliteManager.addNode`: `_getContainer` (owner-checked), then the node
definition is fetched and `container.addNode` is registered as callback.
`Container.addNode` is not under `src/`; modelled from the spec (§3, §4.5):
the fully-resolved node is added to the record's `nodes` set. -/
def addNode (s : SatState) (robotID containerID nodeID : String) :
    Option PyError × SatState :=
  match getContainer s robotID containerID with
  | .error e => (some e, s)
  | .ok _container =>
      (none,
       { s with containers :=
          s.containers.map (fun p =>
            if p.1 == containerID
            then (p.1, { p.2 with nodes := p.2.nodes ++ [nodeID] })
            else p) })

/-- `SatelliteManager.removeNode`: `_getContainer` (owner-checked), then
`container.removeNode(nodeID)`.  `Container.removeNode` is not under `src/`;
modelled from the spec (§4.5): removal of the node from the record's set. -/
def removeNode (s : SatState) (robotID containerID nodeID : String) :
    Option PyError × SatState :=
  match getContainer s robotID containerID with
  | .error e => (some e, s)
  | .ok _container =>
      (none,
       { s with containers :=
          s.containers.map (fun p =>
            if p.1 == containerID
            then (p.1, { p.2 with nodes := p.2.nodes.filter (· != nodeID) })
            else p) })

/-- `SatelliteManager.sendROSMsgToContainer`: `_getContainer` (owner-checked),
then `container.send(msg, interfaceName, robotID)`.  Sending forwards the
payload and does not touch the container map; the last component lists the
`(msg, interfaceName, robotID)` forwards. -/
def sendROSMsgToContainer (s : SatState) (robotID containerID interfaceName msg : String) :
    Option PyError × SatState × List (String × String × String) :=
  match getContainer s robotID containerID with
  | .error e => (some e, s, [])
  | .ok _container => (none, s, [(msg, interfaceName, robotID)])

/-- `SatelliteManager.setConnectedFlagContainer`: when `commID` is not a key
of `self._containers`, raise `InvalidRequest` for `flag=True` and return
silently for `flag=False`; otherwise call `setConnectedFlag(flag)` on the
matching container.  `Container.setConnectedFlag` is not under `src/`;
modelled from the spec (§4.5): update the record's `connected` flag. -/
def setConnectedFlagContainer (s : SatState) (commID : String) (flag : Bool) :
    Except PyError SatState :=
  if (s.containers.lookup commID).isNone then
    if flag then .error (.invalidRequest "CommID does not match any container.")
    else .ok s
  else
    .ok { s with containers :=
          s.containers.map (fun p =>
            if p.1 == commID then (p.1, { p.2 with connected := flag }) else p) }

/-- `SatelliteManager.getSatelliteRouting`: `self._containers.keys()`. -/
def getSatelliteRouting (s : SatState) : List String :=
  s.containers.map Prod.fst

/-- Outcome of the `processRobotSpecs` callback inside
`SatelliteManager.createContainer`: the state after the callback, the
`(commID, homeFolder)` pairs for which `container.start` was invoked, and the
log messages emitted. -/
structure CreateOutcome where
  state : SatState
  started : List (String × String)
  logs : List String
deriving DecidableEq, Repr

/-- The `processRobotSpecs` callback of `SatelliteManager.createContainer`,
run on the `DeferredList` result of the robot-specs lookup and the new-CommID
request.  `robotOk`/`homeFolder` are the success flag and value of the first
deferred, `commIDOk`/`commID` of the second.  `validateAddress` (imported from
`Comm.CommUtil`, not under `src/`) and `os.path.isdir` are passed in as the
oracle functions the code calls.  `Container(commID, homeFolder)` is
constructed with `ownerRobot := robotID` (modelled from the spec §3, as
`_Container.Container` is not under `src/`), then `container.start` is invoked
and the container inserted into the map. -/
def processRobotSpecs (validateAddress : String → Bool) (isDir : String → Bool)
    (s : SatState) (robotID : String)
    (robotOk : Bool) (homeFolder : String) (commIDOk : Bool) (commID : String) :
    CreateOutcome :=
  if !(robotOk && commIDOk) then
    ⟨s, [], ["Could not get necessary data to start a new container."]⟩
  else if !(validateAddress commID) then
    ⟨s, [], ["The CommID is not a valid address."]⟩
  else if (s.containers.lookup commID).isSome then
    ⟨s, [], ["There is already a container with the same CommID."]⟩
  else if !(isDir homeFolder) then
    ⟨s, [], ["The home folder is not a valid directory."]⟩
  else
    ⟨{ s with containers :=
          s.containers ++ [(commID, { commID := commID, homeDir := homeFolder, owner := robotID })] },
     [(commID, homeFolder)], []⟩

/-! ### Helper lemmas on association-list lookup -/

theorem lookup_map_update (l : List (String × Container)) (key : String)
    (f : Container → Container) :
    (l.map (fun p => if p.1 == key then (p.1, f p.2) else p)).lookup key =
      (l.lookup key).map f := by
  induction l with
  | nil => rfl
  | cons p t ih =>
      rcases p with ⟨a, v⟩
      by_cases h : a = key
      · subst h
        simp [List.lookup_cons]
      · have h2 : (key == a) = false := beq_eq_false_iff_ne.mpr (Ne.symm h)
        simpa [List.lookup_cons, h, h2] using ih

theorem lookup_map_update_ne (l : List (String × Container)) (key k : String)
    (f : Container → Container) (hk : k ≠ key) :
    (l.map (fun p => if p.1 == key then (p.1, f p.2) else p)).lookup k =
      l.lookup k := by
  induction l with
  | nil => rfl
  | cons p t ih =>
      rcases p with ⟨a, v⟩
      by_cases h : a = key
      · have hkk : (k == key) = false := beq_eq_false_iff_ne.mpr hk
        simpa [List.lookup_cons, h, hkk] using ih
      · cases hka : (k == a)
        · simpa [List.lookup_cons, h, hka] using ih
        · simp [List.lookup_cons, h, hka]

/-! ### C4: owner-checked operations fail with InvalidRequest, state unchanged -/

theorem getContainer_invalid (s : SatState) (robotID containerID : String)
    (h : s.containers.lookup containerID = none ∨
         ∃ c, s.containers.lookup containerID = some c ∧ c.checkOwner robotID = false) :
    ∃ m, getContainer s robotID containerID = .error (.invalidRequest m) := by
  unfold getContainer
  rcases h with h | ⟨c, hc, ho⟩
  · rw [h]
    exact ⟨_, rfl⟩
  · rw [hc]
    simp only [ho]
    exact ⟨_, rfl⟩

/-- C4: for `destroyContainer` (and the other owner-checked operations
`addNode`, `removeNode`, `sendROSMsgToContainer`), when `containerID` matches
no registered container or `robotID` is not the owner, the call fails with
`InvalidRequest` and the container map is left unchanged. -/
theorem ownerChecked_ops_fail_without_state_change
    (s : SatState) (robotID containerID nodeID interfaceName msg : String)
    (h : s.containers.lookup containerID = none ∨
         ∃ c, s.containers.lookup containerID = some c ∧ c.checkOwner robotID = false) :
    (∃ m, (destroyContainer s robotID containerID).1 = some (.invalidRequest m)) ∧
    (destroyContainer s robotID containerID).2.1 = s ∧
    (destroyContainer s robotID containerID).2.2 = [] ∧
    (addNode s robotID containerID nodeID).1.isSome ∧
    (addNode s robotID containerID nodeID).2 = s ∧
    (removeNode s robotID containerID nodeID).1.isSome ∧
    (removeNode s robotID containerID nodeID).2 = s ∧
    (sendROSMsgToContainer s robotID containerID interfaceName msg).1.isSome ∧
    (sendROSMsgToContainer s robotID containerID interfaceName msg).2.1 = s := by
  obtain ⟨m, hm⟩ := getContainer_invalid s robotID containerID h
  unfold destroyContainer addNode removeNode sendROSMsgToContainer
  rw [hm]
  exact ⟨⟨m, rfl⟩, rfl, rfl, rfl, rfl, rfl, rfl, rfl, rfl⟩

/-- Witness for `ownerChecked_ops_fail_without_state_change`: a state holding
one container owned by "robot-A", called with the non-owner "robot-B". -/
theorem ownerChecked_ops_fail_witness :
    let c : Container := { commID := "SATL0042", homeDir := "/home/ros/A", owner := "robot-A" }
    let s : SatState :=
      { containers := [("SATL0042", c)], pendingCommIDReq := [], nextSlot := 0 }
    (∃ m, (destroyContainer s "robot-B" "SATL0042").1 = some (.invalidRequest m)) ∧
    (destroyContainer s "robot-B" "SATL0042").2.1 = s ∧
    (destroyContainer s "robot-B" "SATL0042").2.2 = [] ∧
    (addNode s "robot-B" "SATL0042" "n").1.isSome ∧
    (addNode s "robot-B" "SATL0042" "n").2 = s ∧
    (removeNode s "robot-B" "SATL0042" "n").1.isSome ∧
    (removeNode s "robot-B" "SATL0042" "n").2 = s ∧
    (sendROSMsgToContainer s "robot-B" "SATL0042" "i" "m").1.isSome ∧
    (sendROSMsgToContainer s "robot-B" "SATL0042" "i" "m").2.1 = s :=
  ownerChecked_ops_fail_without_state_change _ "robot-B" "SATL0042" "n" "i" "m"
    (Or.inr ⟨_, rfl, rfl⟩)

theorem keys_map_update (l : List (String × Container)) (key : String)
    (f : Container → Container) :
    (l.map (fun p => if p.1 == key then (p.1, f p.2) else p)).map Prod.fst =
      l.map Prod.fst := by
  induction l with
  | nil => rfl
  | cons p t ih =>
      rcases p with ⟨a, v⟩
      simp only [List.map_cons, ih]
      by_cases h : a = key
      · rw [if_pos (beq_iff_eq.mpr h)]
      · rw [if_neg (by simp [beq_eq_false_iff_ne.mpr h])]

/-! ### C5: createContainer inserts exactly under the four validated conditions -/

/-- C5: the `processRobotSpecs` callback of `createContainer` constructs,
starts and inserts a new container record if and only if both deferred lookups
succeeded, the returned address validates, no existing record has that
address, and the home folder is an existing directory; on any failure it logs
one message and leaves the state unchanged with nothing started. -/
theorem createContainer_inserts_iff (validateAddress isDir : String → Bool)
    (s : SatState) (robotID homeFolder commID : String) (robotOk commIDOk : Bool) :
    if robotOk && commIDOk && validateAddress commID &&
        !((s.containers.lookup commID).isSome) && isDir homeFolder then
      processRobotSpecs validateAddress isDir s robotID robotOk homeFolder commIDOk commID =
        ⟨{ s with containers := s.containers ++
              [(commID, { commID := commID, homeDir := homeFolder, owner := robotID })] },
         [(commID, homeFolder)], []⟩
    else
      (processRobotSpecs validateAddress isDir s robotID robotOk homeFolder commIDOk commID).state = s ∧
      (processRobotSpecs validateAddress isDir s robotID robotOk homeFolder commIDOk commID).started = [] ∧
      (processRobotSpecs validateAddress isDir s robotID robotOk homeFolder commIDOk commID).logs.length = 1 := by
  cases robotOk <;> cases commIDOk <;>
    cases hv : validateAddress commID <;>
      cases hl : (s.containers.lookup commID).isSome <;>
        cases hd : isDir homeFolder <;>
          simp [processRobotSpecs, hv, hl, hd]

/-! ### C6: setConnectedFlagContainer case analysis -/

/-- C6: `setConnectedFlagContainer` fails with `InvalidRequest` when
`flag=true` and no record matches; succeeds silently with no state change when
`flag=false` and no record matches; otherwise updates exactly the matching
record's `connected` flag, leaving every other record and the pending queue
unchanged. -/
theorem setConnectedFlagContainer_spec (s : SatState) (commID : String) (flag : Bool) :
    (s.containers.lookup commID = none → flag = true →
        setConnectedFlagContainer s commID flag =
          .error (.invalidRequest "CommID does not match any container.")) ∧
    (s.containers.lookup commID = none → flag = false →
        setConnectedFlagContainer s commID flag = .ok s) ∧
    (∀ c, s.containers.lookup commID = some c →
        ∃ s', setConnectedFlagContainer s commID flag = .ok s' ∧
          s'.containers.lookup commID = some { c with connected := flag } ∧
          (∀ k, k ≠ commID → s'.containers.lookup k = s.containers.lookup k) ∧
          s'.pendingCommIDReq = s.pendingCommIDReq) := by
  refine ⟨?_, ?_, ?_⟩
  · intro hn hf
    unfold setConnectedFlagContainer
    rw [hn, hf]
    rfl
  · intro hn hf
    unfold setConnectedFlagContainer
    rw [hn, hf]
    rfl
  · intro c hc
    have hs : (s.containers.lookup commID).isNone = false := by rw [hc]; rfl
    have hrun : setConnectedFlagContainer s commID flag =
        .ok { s with containers := s.containers.map (fun p =>
            if p.1 == commID then (p.1, { p.2 with connected := flag }) else p) } := by
      unfold setConnectedFlagContainer
      rw [hs]
      rfl
    refine ⟨_, hrun, ?_, ?_, rfl⟩
    · have h2 := lookup_map_update s.containers commID (fun x => { x with connected := flag })
      rw [hc] at h2
      simpa using h2
    · intro k hkk
      exact lookup_map_update_ne s.containers commID k
        (fun x => { x with connected := flag }) hkk

/-- Witness for `setConnectedFlagContainer_spec`: the error case and the
silent case on the empty state, and the update case on a one-container
state. -/
theorem setConnectedFlagContainer_spec_witness :
    setConnectedFlagContainer initSatState "X" true =
      .error (.invalidRequest "CommID does not match any container.") ∧
    setConnectedFlagContainer initSatState "X" false = .ok initSatState ∧
    (∃ s', setConnectedFlagContainer
        { containers := [("SATL0042", { commID := "SATL0042", homeDir := "/h", owner := "r" })],
          pendingCommIDReq := [], nextSlot := 0 } "SATL0042" true = .ok s' ∧
      s'.containers.lookup "SATL0042" =
        some { commID := "SATL0042", homeDir := "/h", owner := "r", connected := true } ∧
      (∀ k, k ≠ "SATL0042" →
        s'.containers.lookup k =
          ([("SATL0042", { commID := "SATL0042", homeDir := "/h", owner := "r" })] :
            List (String × Container)).lookup k) ∧
      s'.pendingCommIDReq = []) :=
  ⟨(setConnectedFlagContainer_spec initSatState "X" true).1 rfl rfl,
   (setConnectedFlagContainer_spec initSatState "X" false).2.1 rfl rfl,
   (setConnectedFlagContainer_spec
      { containers := [("SATL0042", { commID := "SATL0042", homeDir := "/h", owner := "r" })],
        pendingCommIDReq := [], nextSlot := 0 } "SATL0042" true).2.2
      { commID := "SATL0042", homeDir := "/h", owner := "r" } rfl⟩

/-! ### C7: routing view is exactly the registered addresses -/

/-- C7: `getSatelliteRouting` returns exactly the addresses of the container
records currently in the map — an address appears iff some record carries it —
and the returned set is unchanged by any successful update of a record's
`connected` flag. -/
theorem getSatelliteRouting_spec (s : SatState) (a commID : String) (flag : Bool) :
    (a ∈ getSatelliteRouting s ↔ ∃ c, (a, c) ∈ s.containers) ∧
    (∀ s', setConnectedFlagContainer s commID flag = .ok s' →
        getSatelliteRouting s' = getSatelliteRouting s) := by
  constructor
  · unfold getSatelliteRouting
    constructor
    · intro ha
      obtain ⟨p, hp, hpa⟩ := List.mem_map.mp ha
      refine ⟨p.2, ?_⟩
      rw [← hpa, Prod.mk.eta]
      exact hp
    · rintro ⟨c, hc⟩
      exact List.mem_map.mpr ⟨(a, c), hc, rfl⟩
  · intro s' hs'
    unfold setConnectedFlagContainer at hs'
    cases hn : (s.containers.lookup commID).isNone with
    | false =>
        rw [hn] at hs'
        have h2 : Except.ok (ε := PyError)
            ({ s with containers := s.containers.map (fun p =>
                if p.1 == commID then (p.1, { p.2 with connected := flag }) else p) }) =
            Except.ok s' := hs'
        injection h2 with h2
        rw [← h2]
        unfold getSatelliteRouting
        exact keys_map_update s.containers commID (fun x => { x with connected := flag })
    | true =>
        rw [hn] at hs'
        cases flag with
        | false =>
            have h2 : Except.ok (ε := PyError) s = Except.ok s' := hs'
            injection h2 with h2
            rw [← h2]
        | true =>
            exact Except.noConfusion
              (show Except.error (PyError.invalidRequest "CommID does not match any container.") =
                 Except.ok s' from hs')

/-- Witness for `getSatelliteRouting_spec`: a one-container state and the
successful `connected := true` update on it. -/
theorem getSatelliteRouting_spec_witness :
    ("SATL0042" ∈ getSatelliteRouting
        { containers := [("SATL0042", { commID := "SATL0042", homeDir := "/h", owner := "r" })],
          pendingCommIDReq := [], nextSlot := 0 } ↔
      ∃ c, ("SATL0042", c) ∈ SatState.containers
        { containers := [("SATL0042", { commID := "SATL0042", homeDir := "/h", owner := "r" })],
          pendingCommIDReq := [], nextSlot := 0 }) ∧
    getSatelliteRouting
        { containers := [("SATL0042",
            { commID := "SATL0042", homeDir := "/h", owner := "r", connected := true })],
          pendingCommIDReq := [], nextSlot := 0 } =
      getSatelliteRouting
        { containers := [("SATL0042", { commID := "SATL0042", homeDir := "/h", owner := "r" })],
          pendingCommIDReq := [], nextSlot := 0 } :=
  ⟨(getSatelliteRouting_spec
      { containers := [("SATL0042", { commID := "SATL0042", homeDir := "/h", owner := "r" })],
        pendingCommIDReq := [], nextSlot := 0 } "SATL0042" "SATL0042" true).1,
   (getSatelliteRouting_spec
      { containers := [("SATL0042", { commID := "SATL0042", homeDir := "/h", owner := "r" })],
        pendingCommIDReq := [], nextSlot := 0 } "SATL0042" "SATL0042" true).2
      { containers := [("SATL0042",
          { commID := "SATL0042", homeDir := "/h", owner := "r", connected := true })],
        pendingCommIDReq := [], nextSlot := 0 } rfl⟩

/-! ## `ContainerUtil/Manager.py`: the ContainerManager -/

/-- `os.path.join` for the relative second components used by the manager
(commIDs and fixed file names, none of which is absolute). -/
def pathJoin (a b : String) : String := a ++ "/" ++ b

/-- `os.path.isabs` on POSIX: the path starts with a slash. -/
def isAbs (p : String) : Bool := p.toList.head? == some '/'

/-- The host filesystem as seen by the manager: the existing directories and
the written files with their contents. -/
structure FS where
  dirs : List String
  files : List (String × String)
deriving DecidableEq, Repr

def FS.writeFile (fs : FS) (path content : String) : FS :=
  { fs with files := fs.files ++ [(path, content)] }

/-- Configuration and mutable state of `ContainerManager`: the validated
absolute paths read from `settings` and the list `self._commIDs`. -/
structure ContainerMgr where
  confDir : String
  rootfs : String
  srcRoot : String
  commIDs : List String
deriving DecidableEq, Repr

/-- `ContainerManager._createConfigFile`: the exact content written to
`<confDir>/<commID>/config`. -/
def configFileContent (m : ContainerMgr) (commID : String) : String :=
  String.intercalate "\n" [
    "lxc.utsname = ros",
    "",
    "lxc.tty = 4",
    "lxc.pts = 1024",
    "lxc.rootfs = " ++ m.rootfs,
    "lxc.mount = " ++ pathJoin (pathJoin m.confDir commID) "fstab",
    "",
    "lxc.network.type = veth",
    "lxc.network.flags = up",
    "lxc.network.name = eth0",
    "lxc.network.link = br0",
    "lxc.network.ipv4 = 0.0.0.0",
    "",
    "lxc.cgroup.devices.deny = a",
    "# /dev/null and zero",
    "lxc.cgroup.devices.allow = c 1:3 rwm",
    "lxc.cgroup.devices.allow = c 1:5 rwm",
    "# consoles",
    "lxc.cgroup.devices.allow = c 5:1 rwm",
    "lxc.cgroup.devices.allow = c 5:0 rwm",
    "lxc.cgroup.devices.allow = c 4:0 rwm",
    "lxc.cgroup.devices.allow = c 4:1 rwm",
    "# /dev/\x7b,u\x7drandom",
    "lxc.cgroup.devices.allow = c 1:9 rwm",
    "lxc.cgroup.devices.allow = c 1:8 rwm",
    "lxc.cgroup.devices.allow = c 136:* rwm",
    "lxc.cgroup.devices.allow = c 5:2 rwm",
    "# rtc",
    "lxc.cgroup.devices.allow = c 254:0 rwm",
    "" ]

/-- `ContainerManager._createFstabFile`: the exact content of
`<confDir>/<commID>/fstab`; raises `ValueError` when `homeDir` is not an
absolute path (the source's typo "absoulte" is kept verbatim). -/
def fstabFileContent (m : ContainerMgr) (commID homeDir : String) :
    Except PyError String :=
  if !(isAbs homeDir) then
    .error (.valueError "Home directory is not an absoulte path.")
  else
    .ok (String.intercalate "\n" [
      "proc     " ++ pathJoin m.rootfs "proc" ++ "      proc     nodev,noexec,nosuid 0 0",
      "devpts   " ++ pathJoin m.rootfs "dev/pts" ++ "   devpts   defaults            0 0",
      "sysfs    " ++ pathJoin m.rootfs "sys" ++ "       sysfs    defaults            0 0",
      homeDir ++ "   " ++ pathJoin m.rootfs "home/ros" ++ "   none   bind 0 0",
      m.srcRoot ++ "   " ++ pathJoin m.rootfs "opt/reappengine" ++ "   none   bind,ro 0 0",
      pathJoin (pathJoin m.confDir commID) "upstart" ++ "   " ++
        pathJoin m.rootfs "etc/init/reappengine.conf" ++ "   none   bind,ro 0 0",
      "" ])

/-- The argument list handed to `' '.join` for the active start line of the
upstart script: the debugging placeholder `Dummy.py` launched with the
literal argument `str(8090)`. -/
def upstartStartArgs : List String :=
  [ "start-stop-daemon", "-c", "ros:ros", "-d", "/home/ros", "--retry", "5",
    "--exec", "python", "--",
    "/home/ros/lib/framework/Administration/src/Dummy.py", "8090" ]

/-- The active start line of the upstart script: `'\t' + ' '.join(...)`. -/
def upstartStartLine : String :=
  "\t" ++ String.intercalate " " upstartStartArgs

/-- The lines of `ContainerManager._createUpstartScript`, joined with
newlines to give the file content.  The `Environment.py` launch that would
receive the container's address is commented out in the source, so the lines
do not depend on `commID`. -/
def upstartLines (commID : String) : List String :=
  [ "# description",
    "author \"Dominique Hunziker\"",
    "description \"reappengine - ROS framework for managing and using ROS nodes\"",
    "",
    "# start/stop conditions",
    "start on runlevel [2345]",
    "stop on runlevel [016])",
    "",
    "# timeout before the process is killed; generous as a lot of processes have",
    "# to be terminated by the reappengine",
    "kill timeout 30",
    "",
    "script",
    "\t# setup environment",
    "\t. /etc/environment",
    "\t",
    "\t# start environment node",
    upstartStartLine,
    "end script",
    "" ]

/-- `ContainerManager._createUpstartScript`: the exact content of
`<confDir>/<commID>/upstart`. -/
def upstartFileContent (commID : String) : String :=
  String.intercalate "\n" (upstartLines commID)

/-- Result of `ContainerManager._startContainer`/`startContainer`: the
escaped exception if any, the filesystem afterwards, the log messages, the
external command list the code constructs, the processes actually spawned
via `reactor.spawnProcess`, and the outbound messages sent to the master
(`ContainerManager` contains no send call, so this is always empty). -/
structure StartResult where
  err : Option PyError
  fs : FS
  logs : List String
  cmdBuilt : List (List String)
  spawned : List (List String)
  sent : List String
deriving DecidableEq, Repr

/-- `ContainerManager._startContainer`: abort with a log message when
`<confDir>/<commID>` already exists; otherwise `os.mkdir` it, write the
`config`, `fstab` and `upstart` files, log, and construct the `lxc-start`
command — whose `reactor.spawnProcess` invocation is commented out in the
source, so nothing is spawned. -/
def startContainerInner (m : ContainerMgr) (fs : FS) (commID homeDir : String) :
    StartResult :=
  let confDir := pathJoin m.confDir commID
  if fs.dirs.contains confDir then
    { err := none, fs := fs,
      logs := ["There exists already a directory with the name \"" ++ commID ++ "\"."],
      cmdBuilt := [], spawned := [], sent := [] }
  else
    let fs1 : FS := { fs with dirs := fs.dirs ++ [confDir] }
    let fs2 := fs1.writeFile (pathJoin confDir "config") (configFileContent m commID)
    match fstabFileContent m commID homeDir with
    | .error e =>
        { err := some e, fs := fs2, logs := ["Create files..."],
          cmdBuilt := [], spawned := [], sent := [] }
    | .ok fstab =>
        let fs3 := fs2.writeFile (pathJoin confDir "fstab") fstab
        let fs4 := fs3.writeFile (pathJoin confDir "upstart") (upstartFileContent commID)
        { err := none, fs := fs4,
          logs := ["Create files...", "Start container..."],
          cmdBuilt := [["/usr/bin/lxc-start", "-n", commID, "-f",
                        pathJoin (pathJoin m.confDir commID) "config", "-d"]],
          spawned := [], sent := [] }

/-- `ContainerManager.startContainer`: abort with a log message when the
commID is already registered; otherwise append it to `self._commIDs` and run
`_startContainer`. -/
def startContainer (m : ContainerMgr) (fs : FS) (commID homeDir : String) :
    ContainerMgr × StartResult :=
  if m.commIDs.contains commID then
    (m, { err := none, fs := fs,
          logs := ["There is already a container registered under the same CommID."],
          cmdBuilt := [], spawned := [], sent := [] })
  else
    let m' := { m with commIDs := m.commIDs ++ [commID] }
    (m', startContainerInner m' fs commID homeDir)

/-! ### C2: the lxc-start invocation -/

/-- C2 (code evaluated at the failing input): starting container "SATL0042"
with a fresh configuration directory creates the directory, writes the three
files `config`/`fstab`/`upstart`, and builds exactly the command
`lxc-start -n SATL0042 -f <confDir>/SATL0042/config -d` — but spawns no
process: the `reactor.spawnProcess` call is commented out in
`_startContainer`, so `lxc-start` is never invoked. -/
theorem startContainer_never_spawns :
    (startContainer { confDir := "/conf", rootfs := "/rootfs", srcRoot := "/src", commIDs := [] }
        { dirs := [], files := [] } "SATL0042" "/home/ros/A").1.commIDs = ["SATL0042"] ∧
    (startContainer { confDir := "/conf", rootfs := "/rootfs", srcRoot := "/src", commIDs := [] }
        { dirs := [], files := [] } "SATL0042" "/home/ros/A").2.err = none ∧
    (startContainer { confDir := "/conf", rootfs := "/rootfs", srcRoot := "/src", commIDs := [] }
        { dirs := [], files := [] } "SATL0042" "/home/ros/A").2.fs.dirs = ["/conf/SATL0042"] ∧
    (startContainer { confDir := "/conf", rootfs := "/rootfs", srcRoot := "/src", commIDs := [] }
        { dirs := [], files := [] } "SATL0042" "/home/ros/A").2.fs.files.map Prod.fst =
      ["/conf/SATL0042/config", "/conf/SATL0042/fstab", "/conf/SATL0042/upstart"] ∧
    (startContainer { confDir := "/conf", rootfs := "/rootfs", srcRoot := "/src", commIDs := [] }
        { dirs := [], files := [] } "SATL0042" "/home/ros/A").2.cmdBuilt =
      [["/usr/bin/lxc-start", "-n", "SATL0042", "-f", "/conf/SATL0042/config", "-d"]] ∧
    (startContainer { confDir := "/conf", rootfs := "/rootfs", srcRoot := "/src", commIDs := [] }
        { dirs := [], files := [] } "SATL0042" "/home/ros/A").2.spawned = [] :=
  ⟨rfl, rfl, rfl, rfl, rfl, rfl⟩

/-! ### C3: duplicate container directory -/

/-- C3 (counterexample): with `<confDir>/SATL0099` already on disk,
`startContainer` logs the error and aborts the creation, but the address
"SATL0099" REMAINS registered in `self._commIDs` (it was appended before the
directory check ran) and nothing is sent to the master — `ContainerManager`
contains no `ID_DELETE` send — contradicting the claim that no registration
remains and that the reserved address is released. -/
theorem startContainer_alreadyStarted_keeps_registration :
    (startContainer { confDir := "/conf", rootfs := "/rootfs", srcRoot := "/src", commIDs := [] }
        { dirs := ["/conf/SATL0099"], files := [] } "SATL0099" "/home/ros/A").2.logs =
      ["There exists already a directory with the name \"SATL0099\"."] ∧
    (startContainer { confDir := "/conf", rootfs := "/rootfs", srcRoot := "/src", commIDs := [] }
        { dirs := ["/conf/SATL0099"], files := [] } "SATL0099" "/home/ros/A").2.fs =
      { dirs := ["/conf/SATL0099"], files := [] } ∧
    (startContainer { confDir := "/conf", rootfs := "/rootfs", srcRoot := "/src", commIDs := [] }
        { dirs := ["/conf/SATL0099"], files := [] } "SATL0099" "/home/ros/A").1.commIDs =
      ["SATL0099"] ∧
    (startContainer { confDir := "/conf", rootfs := "/rootfs", srcRoot := "/src", commIDs := [] }
        { dirs := ["/conf/SATL0099"], files := [] } "SATL0099" "/home/ros/A").2.sent = [] :=
  ⟨rfl, rfl, rfl, rfl⟩

/-- C3 (amended): for every start request whose `<confDir>/<address>`
directory already exists (and whose address is not yet registered), the error
is logged and the creation is aborted — the filesystem is untouched, nothing
is built or spawned — but the address remains appended to the manager's
registered commID list and no release message is sent to the master. -/
theorem startContainer_alreadyStarted_spec (m : ContainerMgr) (fs : FS)
    (commID homeDir : String)
    (hreg : m.commIDs.contains commID = false)
    (hdir : fs.dirs.contains (pathJoin m.confDir commID) = true) :
    (startContainer m fs commID homeDir).2.logs =
      ["There exists already a directory with the name \"" ++ commID ++ "\"."] ∧
    (startContainer m fs commID homeDir).2.fs = fs ∧
    (startContainer m fs commID homeDir).2.err = none ∧
    (startContainer m fs commID homeDir).2.cmdBuilt = [] ∧
    (startContainer m fs commID homeDir).2.spawned = [] ∧
    (startContainer m fs commID homeDir).1.commIDs = m.commIDs ++ [commID] ∧
    (startContainer m fs commID homeDir).2.sent = [] := by
  have hreg' : commID ∉ m.commIDs := by simpa using hreg
  have hdir' : pathJoin m.confDir commID ∈ fs.dirs := by simpa using hdir
  unfold startContainer startContainerInner
  simp [hreg', hdir']

/-- Witness for `startContainer_alreadyStarted_spec` at the concrete
pre-populated directory of the counterexample. -/
theorem startContainer_alreadyStarted_spec_witness :
    (startContainer { confDir := "/conf", rootfs := "/rootfs", srcRoot := "/src", commIDs := [] }
        { dirs := ["/conf/SATL0099"], files := [] } "SATL0099" "/h").2.logs =
      ["There exists already a directory with the name \"SATL0099\"."] ∧
    (startContainer { confDir := "/conf", rootfs := "/rootfs", srcRoot := "/src", commIDs := [] }
        { dirs := ["/conf/SATL0099"], files := [] } "SATL0099" "/h").2.fs =
      { dirs := ["/conf/SATL0099"], files := [] } ∧
    (startContainer { confDir := "/conf", rootfs := "/rootfs", srcRoot := "/src", commIDs := [] }
        { dirs := ["/conf/SATL0099"], files := [] } "SATL0099" "/h").2.err = none ∧
    (startContainer { confDir := "/conf", rootfs := "/rootfs", srcRoot := "/src", commIDs := [] }
        { dirs := ["/conf/SATL0099"], files := [] } "SATL0099" "/h").2.cmdBuilt = [] ∧
    (startContainer { confDir := "/conf", rootfs := "/rootfs", srcRoot := "/src", commIDs := [] }
        { dirs := ["/conf/SATL0099"], files := [] } "SATL0099" "/h").2.spawned = [] ∧
    (startContainer { confDir := "/conf", rootfs := "/rootfs", srcRoot := "/src", commIDs := [] }
        { dirs := ["/conf/SATL0099"], files := [] } "SATL0099" "/h").1.commIDs =
      [] ++ ["SATL0099"] ∧
    (startContainer { confDir := "/conf", rootfs := "/rootfs", srcRoot := "/src", commIDs := [] }
        { dirs := ["/conf/SATL0099"], files := [] } "SATL0099" "/h").2.sent = [] :=
  startContainer_alreadyStarted_spec
    { confDir := "/conf", rootfs := "/rootfs", srcRoot := "/src", commIDs := [] }
    { dirs := ["/conf/SATL0099"], files := [] } "SATL0099" "/h" rfl rfl

/-! ### C8: the upstart script -/

/-- C8 (code evaluated at the failing input): the generated upstart script
does not depend on the container's address at all (so no address can reach
the launched program); the executable launched by its start line is the
debugging placeholder `Dummy.py` and the single program argument is the
literal "8090" — so the inner framework entry point is NOT started with the
container's satellite-scoped address as first argument (that launch is
commented out in the source). -/
theorem upstart_launches_dummy :
    (∀ c₁ c₂ : String, upstartFileContent c₁ = upstartFileContent c₂) ∧
    (upstartLines "SATL0042")[17]? = some upstartStartLine ∧
    upstartStartArgs[10]? = some "/home/ros/lib/framework/Administration/src/Dummy.py" ∧
    upstartStartArgs[11]? = some "8090" ∧
    upstartStartArgs.length = 12 ∧
    "SATL0042" ∉ upstartStartArgs :=
  ⟨fun _ _ => rfl, rfl, rfl, rfl, rfl, by decide⟩

/-! ### C9: ContainerManager.shutdown -/

/-- `ContainerManager._stopContainer` spawns this command and registers a
callback that deletes `<confDir>/<commID>` when the process ends. -/
def stopContainerCmd (commID : String) : List String :=
  ["/usr/bin/lxc-stop", "-n", commID]

/-- State of the `threading.Event` that `ContainerManager.shutdown` blocks
on with `event.wait()`. -/
structure EventState where
  isSet : Bool
deriving DecidableEq, Repr

/-- Invocation of a Python bound method that accepts `arity` positional
parameters with `nargs` positional arguments: on a mismatch Python raises
`TypeError` before the body runs. -/
def invokeBoundMethod (arity nargs : Nat) (body : EventState → EventState)
    (e : EventState) : Except PyError EventState :=
  if nargs == arity then .ok (body e)
  else .error (.typeError "set() takes exactly 1 argument (2 given)")

/-- `deferredList.addCallback(event.set)` in `ContainerManager.shutdown`:
when the `DeferredList` fires, Twisted invokes the callback with the result
list as one positional argument, while `threading.Event.set` (Python 2.7)
takes none — so the invocation raises `TypeError` inside the callback chain
and the event body never runs. -/
def shutdownEventAfterDeferredListFires (e : EventState) : Except PyError EventState :=
  invokeBoundMethod 0 1 (fun ev => { ev with isSet := true }) e

/-- `ContainerManager.shutdown`: the loop
`for commID in self._commIDs: deferreds.append(self._stopContainer(commID))`
spawns one `lxc-stop` per registered container; the event used by
`event.wait()` is then at best (every stop completed, `DeferredList` fired)
in the state produced by `shutdownEventAfterDeferredListFires`. -/
def shutdownRun (m : ContainerMgr) : List (List String) × Except PyError EventState :=
  (m.commIDs.map stopContainerCmd,
   shutdownEventAfterDeferredListFires { isSet := false })

/-- C9 (code evaluated): `shutdown` issues an `lxc-stop` for every registered
container, but even under the most favourable schedule — every stop process
completed and the `DeferredList` fired — the `event.set` callback raises
`TypeError` (it is invoked with the result list as an argument, while
`threading.Event.set` takes none), so the event that `event.wait()` blocks on
is never set and `shutdown` never returns: it does not terminate after the
records reach Stopped, contradicting the claim. -/
theorem shutdown_blocks_forever (m : ContainerMgr) :
    (shutdownRun m).1 = m.commIDs.map (fun c => ["/usr/bin/lxc-stop", "-n", c]) ∧
    (∀ e : EventState, (shutdownRun m).2 ≠ .ok e) ∧
    (shutdownRun m).2 = .error (.typeError "set() takes exactly 1 argument (2 given)") :=
  ⟨rfl, fun _ h => Except.noConfusion h, rfl⟩

end Rce
